import Mathlib

/-!
Shallow embedding of the wearemolecule/kube-scheduler repository
(kubernetes/kubernetes.go, scheduler/scheduler.go, kube-scheduler.go,
notifier/notifier.go), together with theorems settling the spec claims.

Go strings are `String`, Go slices are `List`, Go maps are functions to
`Option`, a Go `error` is `Option String` (`none` = nil, `some m` = an
error whose message is `m`).  A function that may return normally, return
an error, or panic is modelled with the `Outcome` type.  External calls
against the cluster (create / watch / delete / Sentry capture) are
modelled as oracles indexed by the attempt number, so that retry
behaviour is observable.
-/

/-- Result of running a Go function that can return a value, return an
error, or panic at runtime. -/
inductive Outcome (α : Type) where
  | ok : α → Outcome α
  | err : String → Outcome α
  | panicked : String → Outcome α
deriving DecidableEq, Repr

/-- Message of `errors.Wrap(err, msg)` from github.com/pkg/errors:
the wrapping message followed by the cause. -/
def errorsWrap (err msg : String) : String :=
  msg ++ ": " ++ err

namespace v1

/-- Constant `v1.JobComplete` of k8s.io batch/v1: a JobConditionType is a
string. -/
def JobComplete : String := "Complete"

/-- Constant `v1.JobFailed` of k8s.io batch/v1. -/
def JobFailed : String := "Failed"

/-- One entry of `job.Status.Conditions` (batch/v1 JobCondition): the
fields the scheduler reads, plus `Rest` standing for every other field. -/
structure JobCondition where
  Type' : String
  Message : String
  Rest : String := ""
deriving DecidableEq, Repr

/-- The `Status` field of a batch/v1 Job. -/
structure JobStatus where
  Conditions : List JobCondition
  Rest : String := ""
deriving DecidableEq, Repr

/-- A container spec inside the pod template: the two fields the merge
step writes, plus `Rest` standing for every other field. -/
structure Container where
  Image : String
  Args : List String
  Rest : String := ""
deriving DecidableEq, Repr

/-- The pod spec of the job template. -/
structure PodSpec where
  Containers : List Container
  Rest : String := ""
deriving DecidableEq, Repr

/-- The pod template spec of the job template. -/
structure PodTemplateSpec where
  Spec : PodSpec
  Rest : String := ""
deriving DecidableEq, Repr

/-- The `Spec` field of a batch/v1 Job. -/
structure JobSpec where
  Template : PodTemplateSpec
  Rest : String := ""
deriving DecidableEq, Repr

/-- Resource metadata of a batch/v1 Job. -/
structure ObjectMeta where
  Name : String
  Namespace : String
  ResourceVersion : String
  Rest : String := ""
deriving DecidableEq, Repr

/-- A batch/v1 Job resource, with `Rest` standing for every field the
scheduler never touches. -/
structure Job where
  ObjectMeta : ObjectMeta
  Spec : JobSpec
  Status : JobStatus
  Rest : String := ""
deriving DecidableEq, Repr

end v1

namespace scheduler

/-- `scheduler.Job` of scheduler/scheduler.go: one JobDefinition loaded
from the schedule yaml. -/
structure Job where
  Cron : String
  Template : String
  Description : String
  Image : String
  Args : List String
  Namespace : String
deriving DecidableEq, Repr

/-- Function `jobKey` of scheduler/scheduler.go: `name + job.Namespace`. -/
def jobKey (name : String) (job : Job) : String :=
  name ++ job.Namespace

/-- A Go `map[string]string`, modelled extensionally. -/
def LockTable : Type := String → Option String

/-- Method `client.Running`: point-in-time membership check of the lock
table at the job's key. -/
def Running (jobLock : LockTable) (name : String) (job : Job) : Bool :=
  (jobLock (jobKey name job)).isSome

/-- Method `client.StartJob`: records the job's key as running. -/
def StartJob (jobLock : LockTable) (name : String) (job : Job) : LockTable :=
  fun k => if k = jobKey name job then some "running" else jobLock k

/-- Method `client.FinishJob`: removes the job's key. -/
def FinishJob (jobLock : LockTable) (name : String) (job : Job) : LockTable :=
  fun k => if k = jobKey name job then none else jobLock k

end scheduler

namespace kubernetes

/-- Trace of `autoRetry` (kubernetes/kubernetes.go): the returned
`(thing, err)` pair together with how many times `fn` was invoked and how
many times the loop slept. -/
structure RetryTrace (α : Type) where
  result : Option α
  error : Option String
  invocations : Nat
  sleeps : Nat
deriving DecidableEq, Repr

/-- Loop body of `autoRetry`: `fuel` is `3 - attempts`, `attempts` counts
completed failing iterations, `lastErr` is the error of the most recent
failed attempt.  On a nil error the current `thing` is returned at once;
after the bound is exhausted the function returns `nil` and the last
error, having slept after every failure. -/
def autoRetryGo (fn : Nat → Option α × Option String) :
    Nat → Nat → Option String → RetryTrace α
  | 0, attempts, lastErr => ⟨none, lastErr, attempts, attempts⟩
  | fuel + 1, attempts, lastErr =>
    match fn attempts with
    | (thing, none) => ⟨thing, none, attempts + 1, attempts⟩
    | (_, some e) => autoRetryGo fn fuel (attempts + 1) (some e)

/-- Function `autoRetry` of kubernetes/kubernetes.go: run `fn` until it
returns a nil error, at most 3 times, sleeping 1s between attempts. -/
def autoRetry (fn : Nat → Option α × Option String) : RetryTrace α :=
  autoRetryGo fn 3 0 none

/-- Method `client.createJob`: `autoRetry` around the Create API call,
converting the untyped result back with a checked (comma-ok) type
assertion, so a nil result yields `(nil, err)` instead of a panic. -/
def createJob (op : Nat → Option v1.Job × Option String) :
    Option v1.Job × Option String :=
  let t := autoRetry op
  match t.result with
  | some j => (some j, t.error)
  | none => (none, t.error)

/-- Method `client.deleteJob`: `autoRetry` around the Delete API call;
only the error is propagated. -/
def deleteJob (op : Nat → Option String) : Option String :=
  (autoRetry (fun i => ((none : Option Unit), op i))).error

/-- Panic message of an unchecked Go type assertion on a nil interface
value. -/
def interfaceConversionMsg : String :=
  "interface conversion: interface is nil, not watch.Interface"

/-- Method `client.watchJob`: `autoRetry` around the Watch API call,
followed by the UNCHECKED type assertion `thing.(watch.Interface)`.
When `autoRetry` exhausts its attempts it returns a nil `thing`, and the
unchecked assertion on nil panics instead of returning the error. -/
def watchJob (op : Nat → Option α × Option String) :
    Outcome (α × Option String) :=
  let t := autoRetry op
  match t.result with
  | some w => .ok (w, t.error)
  | none => .panicked interfaceConversionMsg

/-- One event delivered on the watch stream; `RunJob` reads it through
the assertion `event.Object.(*v1.Job)`. -/
structure WatchEvent where
  Object : v1.Job
deriving DecidableEq, Repr

/-- The `for event := range events.ResultChan()` loop of `RunJob`
(kubernetes/kubernetes.go lines 92-106), over the whole stream up to its
close: for each event, if the conditions list is non-empty its FIRST
entry is inspected; type Complete returns nil, type Failed returns
`fmt.Errorf(condition.Message)`, anything else (or an empty list) keeps
consuming; a closed stream falls through to `return nil`. -/
def watchLoop : List WatchEvent → Option String
  | [] => none
  | event :: rest =>
    match event.Object.Status.Conditions with
    | [] => watchLoop rest
    | condition :: _ =>
      if condition.Type' = v1.JobComplete then none
      else if condition.Type' = v1.JobFailed then some condition.Message
      else watchLoop rest

/-- Conditions of the stream the watch loop inspects: the first
condition of each event that has any, in stream order. -/
def headConditions (stream : List WatchEvent) : List v1.JobCondition :=
  stream.filterMap (fun e => e.Object.Status.Conditions.head?)

/-- Whether a condition is terminal in the sense of the loop: its type
is Complete or Failed. -/
def isTerminal (c : v1.JobCondition) : Bool :=
  c.Type' == v1.JobComplete || c.Type' == v1.JobFailed

/-- The first terminal condition the watch loop would examine on the
given stream, if any. -/
def firstTerminal (stream : List WatchEvent) : Option v1.JobCondition :=
  (headConditions stream).find? isTerminal

/-- Panic message of indexing an empty Go slice. -/
def indexOutOfRangeMsg : String :=
  "runtime error: index out of range"

/-- The merge step of `RunJob` (kubernetes/kubernetes.go lines 73-78):
write `job.Args` into the first container, overwrite its image only when
the override is non-empty, and set the metadata namespace.  Indexing
`Containers[0]` of an empty slice panics, modelled as `none`. -/
def mergeJob (kubeJob : v1.Job) (job : scheduler.Job) : Option v1.Job :=
  match kubeJob.Spec.Template.Spec.Containers with
  | [] => none
  | c :: cs =>
    let c2 : v1.Container :=
      { c with
        Args := job.Args
        Image := if job.Image ≠ "" then job.Image else c.Image }
    some
      { kubeJob with
        ObjectMeta := { kubeJob.ObjectMeta with Namespace := job.Namespace }
        Spec :=
          { kubeJob.Spec with
            Template :=
              { kubeJob.Spec.Template with
                Spec := { kubeJob.Spec.Template.Spec with Containers := c2 :: cs } } } }

/-- Environment of one `RunJob` invocation: the template file read, the
json decode of its bytes, and the orchestrator's response to the i-th
attempt of each API call.  A successful watch establishment hands over
the full event stream up to its close. -/
structure KubeEnv where
  readFile : Except String String
  unmarshal : String → Except String v1.Job
  createOp : Nat → Option v1.Job × Option String
  watchOp : Nat → Option (List WatchEvent) × Option String
  deleteOp : Nat → Option String

/-- Observable result of one `RunJob` invocation: the outcome (return
value or panic), how many times the deferred `deleteJob` ran, and the
delete error `RunJob` discarded. -/
structure RunJobResult where
  outcome : Outcome Unit
  deleteCalls : Nat
  deleteErr : Option String
deriving DecidableEq, Repr

/-- Method `client.RunJob` of kubernetes/kubernetes.go: read and parse
the template, merge the job definition into it, create the resource
(retried), defer the delete (retried, runs on every later exit path,
its error discarded), establish the watch (retried; panics when
exhausted, see `watchJob`), then consume the stream. -/
def RunJob (env : KubeEnv) (job : scheduler.Job) : RunJobResult :=
  match env.readFile with
  | .error e => ⟨.err (errorsWrap e "Error reading job template"), 0, none⟩
  | .ok data =>
    match env.unmarshal data with
    | .error e => ⟨.err (errorsWrap e "Error parsing task pod"), 0, none⟩
    | .ok kubeJob =>
      match mergeJob kubeJob job with
      | none => ⟨.panicked indexOutOfRangeMsg, 0, none⟩
      | some _merged =>
        match createJob env.createOp with
        | (_, some e) => ⟨.err (errorsWrap e "Error creating kubernetes job"), 0, none⟩
        | (_clusterJob, none) =>
          let dErr := deleteJob env.deleteOp
          match watchJob env.watchOp with
          | .panicked m => ⟨.panicked m, 1, dErr⟩
          | .err m => ⟨.err m, 1, dErr⟩
          | .ok (stream, werr) =>
            match werr with
            | some e => ⟨.err (errorsWrap e "Error creating job watcher"), 1, dErr⟩
            | none =>
              match watchLoop stream with
              | none => ⟨.ok (), 1, dErr⟩
              | some msg => ⟨.err msg, 1, dErr⟩

end kubernetes

namespace main

/-- Type `Job` of kube-scheduler.go (package main): no image override
field in this revision. -/
structure Job where
  Cron : String
  Template : String
  Description : String
  Args : List String
  Namespace : String
deriving DecidableEq, Repr

/-- Method `Job.Equal` of kube-scheduler.go: compares Cron, Template,
Description and Namespace; Args intentionally do not participate. -/
def Equal (j job : Job) : Bool :=
  j.Cron == job.Cron &&
    j.Template == job.Template &&
    j.Description == job.Description &&
    j.Namespace == job.Namespace

/-- The manager's `jobLock` field, a Go `map[string]string` modelled
extensionally. -/
def JobLock : Type := String → Option String

/-- Method `Manager.ReadFromJobLock`. -/
def ReadFromJobLock (jobLock : JobLock) (template : String) : Option String :=
  jobLock template

/-- Method `Manager.WriteToJobLock`. -/
def WriteToJobLock (jobLock : JobLock) (template state : String) : JobLock :=
  fun k => if k = template then some state else jobLock k

/-- Method `Manager.DeleteFromJobLock`. -/
def DeleteFromJobLock (jobLock : JobLock) (template : String) : JobLock :=
  fun k => if k = template then none else jobLock k

/-- Method `Manager.NameFromJob`: reverse lookup of the registry by
`Equal`; `none` models the "Job is not in job list" error. -/
def NameFromJob (jobList : List (String × Job)) (j : Job) : Option String :=
  (jobList.find? (fun p => Equal p.2 j)).map (fun p => p.1)

/-- Observable result of one `Job.Run` invocation: the returned error,
the lock table after the return, whether `createTaskJob` was invoked,
and (when it was) the lock table at the moment of that invocation. -/
structure RunResult where
  ret : Option String
  lockAfter : JobLock
  orchestrated : Bool
  lockDuring : Option JobLock

/-- Method `Job.Run` of kube-scheduler.go: resolve the job's registry
name, skip (returning nil) when the name is already in the lock table,
otherwise write the key, run `createTaskJob` (whose returned error is
the `orch` argument), and delete the key via defer on every exit path of
the locked section. -/
def Run (jobList : List (String × Job)) (jobLock : JobLock) (j : Job)
    (orch : Option String) : RunResult :=
  match NameFromJob jobList j with
  | none =>
    ⟨some (errorsWrap "Job is not in job list" "Unable to get name from job"),
      jobLock, false, none⟩
  | some jobName =>
    if (ReadFromJobLock jobLock jobName).isSome then
      ⟨none, jobLock, false, none⟩
    else
      let locked := WriteToJobLock jobLock jobName "started"
      let after := DeleteFromJobLock locked jobName
      match orch with
      | some e =>
        ⟨some (errorsWrap e ("Failed to created job " ++ jobName)),
          after, true, some locked⟩
      | none => ⟨none, after, true, some locked⟩

end main

namespace notifier

/-- Method `client.notifySentry` of notifier/notifier.go: nil when no
Sentry DSN is configured; otherwise `raven.CaptureErrorAndWait` is
invoked and an empty message id is an error.  `msgID` is the id the
capture call would return. -/
def notifySentry (usingSentry : Bool) (msgID : String) : Option String :=
  if !usingSentry then none
  else if msgID = "" then some "Posting to Sentry failed" else none

/-- Retry loop of `Notify`: `fuel` is `3 - attempts`, `idx` the attempt
number feeding the capture oracle.  Returns the error `Notify` ends up
with (`none` when some attempt returned nil) and how many times the
Sentry capture call was actually made. -/
def notifyLoop (usingSentry : Bool) (capture : Nat → String) :
    Nat → Nat → Option String → Option String × Nat
  | 0, _, lastErr => (lastErr, 0)
  | fuel + 1, idx, lastErr =>
    match notifySentry usingSentry (capture idx) with
    | none => (none, if usingSentry then 1 else 0)
    | some e =>
      let r := notifyLoop usingSentry capture fuel (idx + 1) (some e)
      (r.1, r.2 + (if usingSentry then 1 else 0))

/-- Observable result of one `Notify` call: the local log lines in
order, the returned error, and the number of delivery attempts made
against Sentry. -/
structure NotifyTrace where
  log : List String
  ret : Option String
  deliveryAttempts : Nat
deriving DecidableEq, Repr

/-- Method `client.Notify` of notifier/notifier.go: always log
`errors.Wrap(err, msg)` locally first, then try `notifySentry` up to 3
times; on exhaustion log the delivery failure and return it. -/
def Notify (usingSentry : Bool) (capture : Nat → String)
    (msg errStr : String) : NotifyTrace :=
  let firstLog := errorsWrap errStr msg
  match notifyLoop usingSentry capture 3 0 none with
  | (none, calls) => ⟨[firstLog], none, calls⟩
  | (some e, calls) =>
    ⟨[firstLog, errorsWrap e "Unable to POST to Sentry"], some e, calls⟩

end notifier

/-! ## Helper lemmas -/

theorem autoRetryGo_success {α : Type} (fn : Nat → Option α × Option String)
    (fuel attempts : Nat) (lastErr : Option String)
    (h : (fn attempts).2 = none) :
    kubernetes.autoRetryGo fn (fuel + 1) attempts lastErr
      = ⟨(fn attempts).1, none, attempts + 1, attempts⟩ := by
  rcases hfn : fn attempts with ⟨t, e⟩
  obtain rfl : e = none := by rw [hfn] at h; exact h
  simp [kubernetes.autoRetryGo, hfn]

theorem autoRetryGo_failure {α : Type} (fn : Nat → Option α × Option String)
    (fuel attempts : Nat) (lastErr : Option String) (e : String)
    (h : (fn attempts).2 = some e) :
    kubernetes.autoRetryGo fn (fuel + 1) attempts lastErr
      = kubernetes.autoRetryGo fn fuel (attempts + 1) (some e) := by
  rcases hfn : fn attempts with ⟨t, e2⟩
  obtain rfl : e2 = some e := by rw [hfn] at h; exact h
  simp [kubernetes.autoRetryGo, hfn]

theorem autoRetryGo_invocations_le {α : Type} (fn : Nat → Option α × Option String)
    (fuel : Nat) :
    ∀ attempts lastErr,
      (kubernetes.autoRetryGo fn fuel attempts lastErr).invocations ≤ attempts + fuel := by
  induction fuel with
  | zero => intro attempts lastErr; simp [kubernetes.autoRetryGo]
  | succ n ih =>
    intro attempts lastErr
    rcases hfn : fn attempts with ⟨t, e⟩
    cases e with
    | none =>
      rw [autoRetryGo_success fn n attempts lastErr (by rw [hfn])]
      show attempts + 1 ≤ attempts + (n + 1)
      omega
    | some e2 =>
      rw [autoRetryGo_failure fn n attempts lastErr e2 (by rw [hfn])]
      have := ih (attempts + 1) (some e2)
      omega

/-! ## Claim theorems -/

/-- C6: `autoRetry` invokes `fn` at most 3 times; when the attempt of
0-based index k (k before the bound) is the first to succeed it returns
that attempt's result with no error, after exactly k + 1 invocations and
k sleeps (one per earlier failure); when all 3 attempts fail it returns
a nil result together with the last attempt's error, after exactly 3
invocations. -/
theorem autoRetry_contract {α : Type} (fn : Nat → Option α × Option String) :
    (kubernetes.autoRetry fn).invocations ≤ 3 ∧
    (∀ k, k < 3 → (∀ i, i < k → ((fn i).2).isSome) → (fn k).2 = none →
      kubernetes.autoRetry fn = ⟨(fn k).1, none, k + 1, k⟩) ∧
    ((∀ i, i < 3 → ((fn i).2).isSome) →
      (kubernetes.autoRetry fn).result = none ∧
      (kubernetes.autoRetry fn).error = (fn 2).2 ∧
      (kubernetes.autoRetry fn).invocations = 3) := by
  refine ⟨?_, ?_, ?_⟩
  · simpa using autoRetryGo_invocations_le fn 3 0 none
  · intro k hk hb hs
    interval_cases k
    · rw [kubernetes.autoRetry, autoRetryGo_success fn 2 0 none hs]
    · obtain ⟨e0, he0⟩ := Option.isSome_iff_exists.mp (hb 0 (by omega))
      rw [kubernetes.autoRetry, autoRetryGo_failure fn 2 0 none e0 he0,
        autoRetryGo_success fn 1 1 (some e0) hs]
    · obtain ⟨e0, he0⟩ := Option.isSome_iff_exists.mp (hb 0 (by omega))
      obtain ⟨e1, he1⟩ := Option.isSome_iff_exists.mp (hb 1 (by omega))
      rw [kubernetes.autoRetry, autoRetryGo_failure fn 2 0 none e0 he0,
        autoRetryGo_failure fn 1 1 (some e0) e1 he1,
        autoRetryGo_success fn 0 2 (some e1) hs]
  · intro hb
    obtain ⟨e0, he0⟩ := Option.isSome_iff_exists.mp (hb 0 (by omega))
    obtain ⟨e1, he1⟩ := Option.isSome_iff_exists.mp (hb 1 (by omega))
    obtain ⟨e2, he2⟩ := Option.isSome_iff_exists.mp (hb 2 (by omega))
    rw [kubernetes.autoRetry, autoRetryGo_failure fn 2 0 none e0 he0,
      autoRetryGo_failure fn 1 1 (some e0) e1 he1,
      autoRetryGo_failure fn 0 2 (some e1) e2 he2]
    simp [kubernetes.autoRetryGo, he2]

/-- An operation that fails exactly twice then succeeds with 42. -/
def retryFnTwiceFail : Nat → Option Nat × Option String :=
  fun i => (if i = 2 then some 42 else none, if i < 2 then some "timeout" else none)

/-- Witness for C6: the fail-twice-then-succeed operation yields the
success value with no error, 3 invocations and exactly 2 sleeps. -/
theorem autoRetry_contract_witness :
    kubernetes.autoRetry retryFnTwiceFail
      = ⟨some 42, none, 3, 2⟩ := by
  have h := (autoRetry_contract retryFnTwiceFail).2.1 2 (by omega)
    (by intro i hi; interval_cases i <;> rfl) (by rfl)
  simpa [retryFnTwiceFail] using h

/-- A one-container job template used by the concrete scenarios. -/
def container1 : v1.Container :=
  { Image := "molecule/worker:1", Args := ["serve"], Rest := "resources" }

/-- A parsed job template with exactly one container. -/
def template1 : v1.Job :=
  { ObjectMeta :=
      { Name := "backfill", Namespace := "default", ResourceVersion := "7",
        Rest := "labels" }
    Spec := { Template := { Spec := { Containers := [container1] } } }
    Status := { Conditions := [] } }

/-- A JobDefinition as loaded from the schedule yaml. -/
def jobDef1 : scheduler.Job :=
  { Cron := "0 0 * * *", Template := "backfill.json",
    Description := "nightly backfill", Image := "", Args := ["--all"],
    Namespace := "batch" }

/-- Environment where the template loads and the create succeeds but
every attempt to establish the watch fails. -/
def envWatchFail : kubernetes.KubeEnv :=
  { readFile := .ok "template-bytes"
    unmarshal := fun _ => .ok template1
    createOp := fun _ => (some template1, none)
    watchOp := fun _ => (none, some "watch request timed out")
    deleteOp := fun _ => none }

/-- C1 is violated by the code: when establishing the status watch fails
on every retry attempt, `autoRetry` returns a nil interface value and
`watchJob` applies the unchecked type assertion `thing.(watch.Interface)`
to it, which panics; `RunJob` therefore never reaches its wrapped
`"Error creating job watcher"` error return on this path (the guard that
`createJob` has, with its comment about nil values causing a panic, is
missing in `watchJob`). -/
theorem runJob_watch_exhaustion_panics :
    kubernetes.watchJob
        (fun _ => ((none : Option (List kubernetes.WatchEvent)),
          some "watch request timed out"))
      = .panicked kubernetes.interfaceConversionMsg ∧
    (kubernetes.RunJob envWatchFail jobDef1).outcome
      = .panicked kubernetes.interfaceConversionMsg ∧
    ∀ m, (kubernetes.RunJob envWatchFail jobDef1).outcome ≠ .err m := by
  have h2 : (kubernetes.RunJob envWatchFail jobDef1).outcome
      = .panicked kubernetes.interfaceConversionMsg := by rfl
  refine ⟨by rfl, h2, ?_⟩
  intro m h
  rw [h2] at h
  exact Outcome.noConfusion h

theorem watchLoop_firstTerminal (stream : List kubernetes.WatchEvent) :
    kubernetes.watchLoop stream =
      match kubernetes.firstTerminal stream with
      | none => none
      | some c => if c.Type' = v1.JobComplete then none else some c.Message := by
  induction stream with
  | nil => rfl
  | cons e rest ih =>
    cases hc : e.Object.Status.Conditions with
    | nil =>
      simp only [kubernetes.watchLoop, kubernetes.firstTerminal,
        kubernetes.headConditions, List.filterMap_cons, hc, List.head?]
      exact ih
    | cons c cs =>
      simp only [kubernetes.watchLoop, kubernetes.firstTerminal,
        kubernetes.headConditions, List.filterMap_cons, hc, List.head?,
        List.find?]
      by_cases hcomp : c.Type' = v1.JobComplete
      · simp [kubernetes.isTerminal, hcomp]
      · by_cases hfail : c.Type' = v1.JobFailed
        · simp [kubernetes.isTerminal, hcomp, hfail]
        · simp only [kubernetes.isTerminal]
          rw [if_neg hcomp, if_neg hfail]
          have : (c.Type' == v1.JobComplete || c.Type' == v1.JobFailed) = false := by
            simp [hcomp, hfail]
          rw [this]
          exact ih

/-- C3: the watch-consumption loop maps the observed stream to the
outcome: when the first terminal condition the loop examines has type
Complete, `RunJob` returns nil; when it has type Failed with message m,
`RunJob` returns an error whose message is exactly m; when the stream
closes with no terminal condition examined, `RunJob` returns nil. -/
theorem runJob_stream_outcome (env : kubernetes.KubeEnv) (job : scheduler.Job)
    (data : String) (kubeJob merged : v1.Job) (cj : Option v1.Job)
    (stream : List kubernetes.WatchEvent)
    (hread : env.readFile = .ok data)
    (hun : env.unmarshal data = .ok kubeJob)
    (hmerge : kubernetes.mergeJob kubeJob job = some merged)
    (hcreate : kubernetes.createJob env.createOp = (cj, none))
    (hwatch : kubernetes.watchJob env.watchOp = .ok (stream, none)) :
    (∀ c, kubernetes.firstTerminal stream = some c →
      (c.Type' = v1.JobComplete → (kubernetes.RunJob env job).outcome = .ok ()) ∧
      (c.Type' = v1.JobFailed → (kubernetes.RunJob env job).outcome = .err c.Message)) ∧
    (kubernetes.firstTerminal stream = none →
      (kubernetes.RunJob env job).outcome = .ok ()) := by
  have hout : (kubernetes.RunJob env job).outcome =
      (match kubernetes.watchLoop stream with
        | none => Outcome.ok ()
        | some msg => Outcome.err msg) := by
    simp only [kubernetes.RunJob, hread, hun, hmerge, hcreate, hwatch]
    cases kubernetes.watchLoop stream <;> rfl
  rw [watchLoop_firstTerminal stream] at hout
  constructor
  · intro c hfc
    rw [hfc] at hout
    constructor
    · intro hcomp
      simp only [hcomp, if_pos] at hout
      simpa using hout
    · intro hfail
      have hne : ¬ c.Type' = v1.JobComplete := by
        rw [hfail]; decide
      simp only [if_neg hne] at hout
      simpa using hout
  · intro hnone
    rw [hnone] at hout
    simpa using hout

/-- C9: an event whose conditions list is non-empty but whose first
condition is neither Complete nor Failed neither ends the loop nor
affects the outcome — whatever conditions sit at later indices of the
same event, the loop behaves as if the event had not arrived. -/
theorem watchLoop_skips_nonterminal_head (e : kubernetes.WatchEvent)
    (rest : List kubernetes.WatchEvent) (c : v1.JobCondition)
    (hhead : e.Object.Status.Conditions.head? = some c)
    (hnc : c.Type' ≠ v1.JobComplete) (hnf : c.Type' ≠ v1.JobFailed) :
    kubernetes.watchLoop (e :: rest) = kubernetes.watchLoop rest := by
  cases hc : e.Object.Status.Conditions with
  | nil =>
    rw [hc] at hhead
    exact Option.noConfusion hhead
  | cons c0 cs =>
    rw [hc] at hhead
    obtain rfl : c0 = c := by
      simpa using hhead
    simp only [kubernetes.watchLoop, hc]
    rw [if_neg hnc, if_neg hnf]

/-- A stream event carrying a non-terminal first condition followed by a
terminal one at index 1. -/
def eventActiveThenFailed : kubernetes.WatchEvent :=
  { Object :=
      { template1 with
        Status := { Conditions := [⟨"Active", "", ""⟩, ⟨"Failed", "late failure", ""⟩] } } }

/-- Witness for C9: a stream holding one event whose first condition is
Active (with a Failed condition at index 1) closes without a terminal
condition being examined, so the loop result is nil. -/
theorem watchLoop_skips_nonterminal_head_witness :
    kubernetes.watchLoop [eventActiveThenFailed] = none := by
  rw [watchLoop_skips_nonterminal_head eventActiveThenFailed []
    ⟨"Active", "", ""⟩ rfl (by decide) (by decide)]
  rfl

/-- A template whose container list deserializes to an empty sequence. -/
def templateNoContainers : v1.Job :=
  { ObjectMeta :=
      { Name := "empty", Namespace := "default", ResourceVersion := "1", Rest := "" }
    Spec := { Template := { Spec := { Containers := [] } } }
    Status := { Conditions := [] } }

/-- C10: when the parsed template's container list is empty, the merge
step's unguarded access to `Containers[0]` is out of bounds: `RunJob`
panics there, and no error return of `RunJob` covers that case. -/
theorem runJob_empty_containers_unguarded (env : kubernetes.KubeEnv)
    (job : scheduler.Job) (data : String) (kubeJob : v1.Job)
    (hread : env.readFile = .ok data)
    (hun : env.unmarshal data = .ok kubeJob)
    (hempty : kubeJob.Spec.Template.Spec.Containers = []) :
    (kubernetes.RunJob env job).outcome
      = .panicked kubernetes.indexOutOfRangeMsg ∧
    ∀ m, (kubernetes.RunJob env job).outcome ≠ .err m := by
  have hm : kubernetes.mergeJob kubeJob job = none := by
    simp only [kubernetes.mergeJob, hempty]
  have hout : kubernetes.RunJob env job
      = ⟨.panicked kubernetes.indexOutOfRangeMsg, 0, none⟩ := by
    simp only [kubernetes.RunJob, hread, hun, hm]
  refine ⟨by rw [hout], ?_⟩
  intro m h
  rw [hout] at h
  exact Outcome.noConfusion h

/-- Environment whose template parses to a container-less job. -/
def envNoContainers : kubernetes.KubeEnv :=
  { readFile := .ok "template-bytes"
    unmarshal := fun _ => .ok templateNoContainers
    createOp := fun _ => (some template1, none)
    watchOp := fun _ => (some [], none)
    deleteOp := fun _ => none }

/-- Witness for C10. -/
theorem runJob_empty_containers_unguarded_witness :
    (kubernetes.RunJob envNoContainers jobDef1).outcome
      = .panicked kubernetes.indexOutOfRangeMsg :=
  (runJob_empty_containers_unguarded envNoContainers jobDef1
    "template-bytes" templateNoContainers rfl rfl rfl).1

/-- A stream event whose first condition is Failed with message
"OOMKilled". -/
def eventFailedOOM : kubernetes.WatchEvent :=
  { Object :=
      { template1 with
        Status := { Conditions := [⟨"Failed", "OOMKilled", ""⟩] } } }

/-- Environment where template load, create and watch all succeed and
the stream reports a Failed condition; the delete attempts all fail. -/
def envCreateOk : kubernetes.KubeEnv :=
  { readFile := .ok "template-bytes"
    unmarshal := fun _ => .ok template1
    createOp := fun _ => (some template1, none)
    watchOp := fun _ => (some [eventFailedOOM], none)
    deleteOp := fun _ => some "delete timeout" }

/-- Witness for C3: on a stream whose first terminal condition is Failed
with message "OOMKilled", `RunJob` returns an error whose message is
exactly "OOMKilled". -/
theorem runJob_stream_outcome_witness :
    (kubernetes.RunJob envCreateOk jobDef1).outcome = .err "OOMKilled" :=
  ((runJob_stream_outcome envCreateOk jobDef1 "template-bytes" template1 _
    (some template1) [eventFailedOOM] rfl rfl rfl rfl rfl).1
    ⟨"Failed", "OOMKilled", ""⟩ rfl).2 rfl

/-- C2: once the create step has succeeded, the deferred delete runs
exactly once on every exit path of `RunJob` — Complete, Failed, stream
close, watch-establishment panic — and the outcome `RunJob` ends with is
the one determined by the watch phase, unchanged by whatever the delete
attempts return (their error is discarded). -/
theorem runJob_delete_once_outcome_independent (env : kubernetes.KubeEnv)
    (job : scheduler.Job) (data : String) (kubeJob merged : v1.Job)
    (cj : Option v1.Job)
    (hread : env.readFile = .ok data)
    (hun : env.unmarshal data = .ok kubeJob)
    (hmerge : kubernetes.mergeJob kubeJob job = some merged)
    (hcreate : kubernetes.createJob env.createOp = (cj, none)) :
    (kubernetes.RunJob env job).deleteCalls = 1 ∧
    ∀ dOp : Nat → Option String,
      (kubernetes.RunJob { env with deleteOp := dOp } job).outcome
        = (kubernetes.RunJob env job).outcome := by
  constructor
  · simp only [kubernetes.RunJob, hread, hun, hmerge, hcreate]
    repeat' split
    all_goals rfl
  · intro dOp
    simp only [kubernetes.RunJob, hread, hun, hmerge, hcreate]
    repeat' split
    all_goals rfl

/-- Witness for C2: with the create step succeeding and every delete
attempt failing, the delete is invoked exactly once and swapping the
delete oracle for one that succeeds leaves the returned outcome
unchanged. -/
theorem runJob_delete_once_outcome_independent_witness :
    (kubernetes.RunJob envCreateOk jobDef1).deleteCalls = 1 ∧
    (kubernetes.RunJob { envCreateOk with deleteOp := fun _ => none } jobDef1).outcome
      = (kubernetes.RunJob envCreateOk jobDef1).outcome := by
  obtain ⟨h1, h2⟩ := runJob_delete_once_outcome_independent envCreateOk jobDef1
    "template-bytes" template1 _ (some template1) rfl rfl rfl rfl
  exact ⟨h1, h2 (fun _ => none)⟩

/-- C8: merging a JobDefinition into a loaded template sets the first
container's Args to the configured args exactly, overwrites its Image
only when the override is non-empty, sets the metadata namespace, and
leaves every other field — the first container's remaining fields, all
later containers, and every other template field — unchanged. -/
theorem mergeJob_frame (kubeJob : v1.Job) (job : scheduler.Job)
    (c : v1.Container) (cs : List v1.Container)
    (h : kubeJob.Spec.Template.Spec.Containers = c :: cs) :
    ∃ m c2, kubernetes.mergeJob kubeJob job = some m ∧
      m.Spec.Template.Spec.Containers = c2 :: cs ∧
      c2.Args = job.Args ∧
      (job.Image ≠ "" → c2.Image = job.Image) ∧
      (job.Image = "" → c2.Image = c.Image) ∧
      c2.Rest = c.Rest ∧
      m.ObjectMeta.Namespace = job.Namespace ∧
      m.ObjectMeta.Name = kubeJob.ObjectMeta.Name ∧
      m.ObjectMeta.ResourceVersion = kubeJob.ObjectMeta.ResourceVersion ∧
      m.ObjectMeta.Rest = kubeJob.ObjectMeta.Rest ∧
      m.Spec.Rest = kubeJob.Spec.Rest ∧
      m.Spec.Template.Rest = kubeJob.Spec.Template.Rest ∧
      m.Spec.Template.Spec.Rest = kubeJob.Spec.Template.Spec.Rest ∧
      m.Status = kubeJob.Status ∧
      m.Rest = kubeJob.Rest := by
  simp only [kubernetes.mergeJob, h]
  refine ⟨_, _, rfl, rfl, rfl, ?_, ?_, rfl, rfl, rfl, rfl, rfl, rfl, rfl, rfl,
    rfl, rfl⟩
  · intro hi
    simp [hi]
  · intro hi
    simp [hi]

/-- The record `template1` becomes after merging `jobDef1`: args
overwritten, image kept because the override is empty, namespace set to
batch. -/
def mergedTemplate1 : v1.Job :=
  { template1 with
    ObjectMeta := { template1.ObjectMeta with Namespace := "batch" }
    Spec :=
      { template1.Spec with
        Template :=
          { template1.Spec.Template with
            Spec :=
              { template1.Spec.Template.Spec with
                Containers := [{ container1 with Args := ["--all"] }] } } } }

/-- Witness for C8: the concrete merge of `jobDef1` into `template1`
produces exactly the expected record, and this agrees with the frame
theorem applied to that input. -/
theorem mergeJob_frame_witness :
    kubernetes.mergeJob template1 jobDef1 = some mergedTemplate1 ∧
    (kubernetes.mergeJob template1 jobDef1).isSome = true := by
  refine ⟨by rfl, ?_⟩
  obtain ⟨m, c2, hm, -⟩ := mergeJob_frame template1 jobDef1 container1 [] rfl
  rw [hm]
  rfl

/-- C4: when the job's lock key is already present at the membership
check, `Job.Run` performs no orchestration call, leaves the table alone
and returns nil; otherwise it inserts the key before invoking
`createTaskJob` and the deferred delete removes it before `Run` returns,
whatever the orchestration step returned, so the key is never left in
the table. -/
theorem job_run_lock_protocol (jobList : List (String × main.Job))
    (tbl : main.JobLock) (j : main.Job) (orch : Option String) (n : String)
    (hn : main.NameFromJob jobList j = some n) :
    ((main.ReadFromJobLock tbl n).isSome →
      main.Run jobList tbl j orch = ⟨none, tbl, false, none⟩) ∧
    (main.ReadFromJobLock tbl n = none →
      (main.Run jobList tbl j orch).orchestrated = true ∧
      (main.Run jobList tbl j orch).lockDuring
        = some (main.WriteToJobLock tbl n "started") ∧
      main.ReadFromJobLock (main.Run jobList tbl j orch).lockAfter n = none) := by
  constructor
  · intro h
    simp only [main.Run, hn, h, if_pos]
  · intro h
    have hb : (main.ReadFromJobLock tbl n).isSome = false := by
      rw [h]
      rfl
    simp only [main.Run, hn, hb]
    cases orch <;>
      simp [main.ReadFromJobLock, main.DeleteFromJobLock]

/-- The `backfill` job of the registry, package-main revision. -/
def mainJob1 : main.Job :=
  { Cron := "0 0 * * *", Template := "backfill.json",
    Description := "nightly backfill", Args := ["--all"],
    Namespace := "batch" }

/-- A one-entry registry for the package-main revision. -/
def jobList1 : List (String × main.Job) := [("backfill", mainJob1)]

/-- An empty `Manager.jobLock` table. -/
def emptyJobLock : main.JobLock := fun _ => none

/-- Witness for C4: running `backfill` against an empty lock table
invokes the orchestration step with the key held and returns with the
key removed. -/
theorem job_run_lock_protocol_witness :
    (main.Run jobList1 emptyJobLock mainJob1 none).orchestrated = true ∧
    main.ReadFromJobLock
      (main.Run jobList1 emptyJobLock mainJob1 none).lockAfter "backfill"
      = none := by
  obtain ⟨-, h2⟩ :=
    job_run_lock_protocol jobList1 emptyJobLock mainJob1 none "backfill" rfl
  obtain ⟨ho, -, hafter⟩ := h2 rfl
  exact ⟨ho, hafter⟩

/-- C5: the lock key is the concatenation of the registry name and the
namespace: two triggers with the same name and the same namespace share
a key (so the second finds the first's lock), while two triggers with
the same name and different namespaces have different keys (so one's
lock never blocks the other). -/
theorem jobKey_locking (name : String) (j1 j2 : scheduler.Job)
    (tbl : scheduler.LockTable) :
    (j1.Namespace = j2.Namespace →
      scheduler.jobKey name j1 = scheduler.jobKey name j2 ∧
      scheduler.Running (scheduler.StartJob tbl name j1) name j2 = true) ∧
    (j1.Namespace ≠ j2.Namespace →
      scheduler.jobKey name j1 ≠ scheduler.jobKey name j2 ∧
      (scheduler.Running tbl name j2 = false →
        scheduler.Running (scheduler.StartJob tbl name j1) name j2 = false)) := by
  constructor
  · intro h
    have hk : scheduler.jobKey name j1 = scheduler.jobKey name j2 := by
      simp [scheduler.jobKey, h]
    refine ⟨hk, ?_⟩
    simp [scheduler.Running, scheduler.StartJob, hk]
  · intro h
    have hk : scheduler.jobKey name j1 ≠ scheduler.jobKey name j2 := by
      intro he
      apply h
      have hd := congrArg String.data he
      simp only [scheduler.jobKey, String.data_append] at hd
      exact String.ext (List.append_cancel_left hd)
    refine ⟨hk, ?_⟩
    intro hrun
    simp only [scheduler.Running, scheduler.StartJob] at hrun ⊢
    rw [if_neg (fun hh => hk hh.symm)]
    exact hrun

/-- The `backfill` JobDefinition targeted at the prod namespace. -/
def jobDefProd : scheduler.Job := { jobDef1 with Namespace := "prod" }

/-- An empty scheduler-revision lock table. -/
def emptyLockTable : scheduler.LockTable := fun _ => none

/-- Witness for C5: with `backfill` running in namespace batch, the keys
for batch and prod differ and the prod run is not blocked, while a
second batch trigger finds the lock held. -/
theorem jobKey_locking_witness :
    scheduler.jobKey "backfill" jobDef1 ≠ scheduler.jobKey "backfill" jobDefProd ∧
    scheduler.Running
      (scheduler.StartJob emptyLockTable "backfill" jobDef1) "backfill" jobDefProd
      = false ∧
    scheduler.Running
      (scheduler.StartJob emptyLockTable "backfill" jobDef1) "backfill" jobDef1
      = true := by
  obtain ⟨hsame, hdiff⟩ :=
    jobKey_locking "backfill" jobDef1 jobDefProd emptyLockTable
  obtain ⟨hk, hfree⟩ := hdiff (by decide)
  obtain ⟨hself1, hself2⟩ :=
    (jobKey_locking "backfill" jobDef1 jobDef1 emptyLockTable).1 rfl
  exact ⟨hk, hfree rfl, hself2⟩

theorem notifyLoop_zero (usingSentry : Bool) (capture : Nat → String)
    (idx : Nat) (lastErr : Option String) :
    notifier.notifyLoop usingSentry capture 0 idx lastErr = (lastErr, 0) := rfl

theorem notifyLoop_succ_fail (capture : Nat → String) (fuel idx : Nat)
    (lastErr : Option String) (e : String)
    (h : notifier.notifySentry true (capture idx) = some e) :
    notifier.notifyLoop true capture (fuel + 1) idx lastErr
      = ((notifier.notifyLoop true capture fuel (idx + 1) (some e)).1,
         (notifier.notifyLoop true capture fuel (idx + 1) (some e)).2 + 1) := by
  simp only [notifier.notifyLoop, h, if_true]

/-- C7: `Notify` always writes the local log line first; with Sentry
unconfigured it returns nil after zero delivery attempts; with Sentry
configured and every capture attempt failing it makes exactly 3 delivery
attempts, logs the delivery failure locally and returns that failure. -/
theorem notify_contract (usingSentry : Bool) (capture : Nat → String)
    (msg errStr : String) :
    (notifier.Notify usingSentry capture msg errStr).log.head?
      = some (errorsWrap errStr msg) ∧
    (usingSentry = false →
      notifier.Notify usingSentry capture msg errStr
        = ⟨[errorsWrap errStr msg], none, 0⟩) ∧
    (usingSentry = true → (∀ i, i < 3 → capture i = "") →
      (notifier.Notify usingSentry capture msg errStr).deliveryAttempts = 3 ∧
      (notifier.Notify usingSentry capture msg errStr).ret
        = some "Posting to Sentry failed" ∧
      (notifier.Notify usingSentry capture msg errStr).log
        = [errorsWrap errStr msg,
           errorsWrap "Posting to Sentry failed" "Unable to POST to Sentry"]) := by
  refine ⟨?_, ?_, ?_⟩
  · rcases hl : notifier.notifyLoop usingSentry capture 3 0 none with ⟨r, calls⟩
    cases r <;> simp [notifier.Notify, hl]
  · intro hu
    subst hu
    rfl
  · intro hu hc
    subst hu
    have hh : ∀ i, i < 3 →
        notifier.notifySentry true (capture i) = some "Posting to Sentry failed" := by
      intro i hi
      rw [hc i hi]
      rfl
    have hl : notifier.notifyLoop true capture 3 0 none
        = (some "Posting to Sentry failed", 3) := by
      have e3 : notifier.notifyLoop true capture 3 0 none
          = notifier.notifyLoop true capture (2 + 1) 0 none := rfl
      rw [e3, notifyLoop_succ_fail capture 2 0 none _ (hh 0 (by omega)),
        notifyLoop_succ_fail capture 1 1 _ _ (hh 1 (by omega)),
        notifyLoop_succ_fail capture 0 2 _ _ (hh 2 (by omega)),
        notifyLoop_zero]
    simp [notifier.Notify, hl]

/-- Witness for C7: with Sentry configured and every capture returning
an empty message id, `Notify` makes exactly 3 delivery attempts, returns
the delivery failure, and its first local log line is the wrapped
message. -/
theorem notify_contract_witness :
    (notifier.Notify true (fun _ => "") "x failed" "boom").deliveryAttempts = 3 ∧
    (notifier.Notify true (fun _ => "") "x failed" "boom").ret
      = some "Posting to Sentry failed" ∧
    (notifier.Notify true (fun _ => "") "x failed" "boom").log.head?
      = some (errorsWrap "boom" "x failed") := by
  obtain ⟨hlog, -, h3⟩ := notify_contract true (fun _ => "") "x failed" "boom"
  obtain ⟨ha, hr, -⟩ := h3 rfl (fun i _ => rfl)
  exact ⟨ha, hr, hlog⟩
